import Mathlib

/-!
Verification of the video decomposition-and-scoring core of the repository:
scene segmentation with fallback, per-scene keyframe and audio extraction,
the quality scorer's bounded sub-scores, the authenticity scorer's
fraction-of-saturated-faces aggregation, and the pipeline orchestrator's
error and file-cleanup behaviour.

Each Lean definition is a shallow embedding of the corresponding Python
function; machine floats are modelled as rationals where the source uses
only field arithmetic and comparisons, and as reals where the source uses
tanh, sqrt or fractional powers.
-/

namespace VideoCore

/-! ## Pipeline orchestrator (src/backend/pipeline/video_pipeline.py)

VideoPipeline.run iterates over the discovered analyzer classes, calling
analyzer_class(video_path).run() with no try/except around the call and
appending a record (analyzer name, result) for each.  An analyzer whose
construction or run raises is modelled as an Except.error entry; the loop
body has no handler, so the exception propagates out of run immediately. -/

/-- Embedding of the analyzer loop of VideoPipeline.run: each entry is the
analyzer's name paired with the outcome of analyzer_class(path).run().
An exception (Except.error) propagates at once; later analyzers never run
and no partial result list is produced. -/
def runAnalyzers {E R : Type} : List (String × Except E R) → Except E (List (String × R))
  | [] => Except.ok []
  | (nm, r) :: rest =>
    match r with
    | Except.error e => Except.error e
    | Except.ok v =>
      match runAnalyzers rest with
      | Except.error e => Except.error e
      | Except.ok tail => Except.ok ((nm, v) :: tail)

/-- Filesystem model for the cleanup step of VideoPipeline.run:
if os.path.exists(video_path) then os.remove(video_path); removal errors
are swallowed by the surrounding try/except. -/
def removeUploaded (p : String) (fs : Finset String) : Finset String :=
  if p ∈ fs then fs.erase p else fs

/-- Embedding of VideoPipeline.run as a whole: run every analyzer in order
(an unhandled exception aborts the run), then delete the uploaded video
file, then return the assembled results together with the new filesystem. -/
def videoPipelineRun {E R : Type} (videoPath : String)
    (analyzers : List (String × Except E R)) (fs : Finset String) :
    Except E (List (String × R) × Finset String) :=
  match runAnalyzers analyzers with
  | Except.error e => Except.error e
  | Except.ok results => Except.ok (results, removeUploaded videoPath fs)

/-! ## VideoQualityAnalyzer constructor (src/backend/analyzers/video_quality.py)

The class statement is VideoQualityAnalyzer() with no base, so super() is
object.  Its __init__ body is exactly super().__init__(video_path), and it
never assigns self.video_path.  CPython's object.__init__ raises TypeError
when given an extra positional argument while __init__ is overridden in
the class, which is the case here. -/

inductive PyError
  | typeError
  deriving DecidableEq, Repr

/-- Models CPython object.__init__ as invoked from a class that overrides
__init__: it accepts no extra positional arguments and raises TypeError
when any are supplied. -/
def objectInit (extraArgs : List String) : Except PyError Unit :=
  if extraArgs.isEmpty then Except.ok () else Except.error PyError.typeError

/-- Embedding of VideoQualityAnalyzer.__init__: its body delegates
super().__init__(video_path) to object.__init__ with one extra positional
argument; on the (unreachable) success path no attribute is assigned, so
the stored video path would be none. -/
def videoQualityAnalyzerInit (videoPath : String) : Except PyError (Option String) :=
  match objectInit [videoPath] with
  | Except.error e => Except.error e
  | Except.ok _ => Except.ok none

/-! ## Preprocessing (src/backend/preprocessing/audio_processor.py)

AudioProcessor.process: detect scenes; if the detected list is empty,
substitute a single synthetic scene spanning the whole video; open the
video; raise ValueError when there is no audio track; then for each scene
boundary extract 5 keyframes and slice the full audio at millisecond
precision.  Times are modelled as exact rationals. -/

/-- Python int() truncation toward zero on a rational. -/
def pyInt (q : ℚ) : Int :=
  if 0 ≤ q then Int.floor q else -Int.floor (-q)

/-- PySceneDetect FrameTimecode: a frame count at a given frame rate. -/
structure FrameTimecode where
  frameNum : Nat
  fps : ℚ
  deriving DecidableEq, Repr

/-- FrameTimecode.get_seconds: frame count divided by the frame rate. -/
def FrameTimecode.getSeconds (t : FrameTimecode) : ℚ :=
  (t.frameNum : ℚ) / t.fps

/-- FrameTimecode constructed from a float timecode in seconds: the frame
number is the rounded product of seconds and frame rate. -/
def FrameTimecode.ofSeconds (secs fps : ℚ) : FrameTimecode :=
  ⟨(round (secs * fps)).toNat, fps⟩

/-- Timestamp of the i-th keyframe of a scene, as computed inside the loop
of AudioProcessor._extract_keyframes: position i/(num_frames-1) (0.5 when
num_frames is 1), scaled into the scene and clamped to the video duration
minus 0.01 seconds. -/
def keyframeTimestamp (videoDur s e : ℚ) (numFrames i : Nat) : ℚ :=
  let position : ℚ := if 1 < numFrames then (i : ℚ) / ((numFrames : ℚ) - 1) else 1/2
  min (s + (e - s) * position) (videoDur - 1/100)

/-- Embedding of AudioProcessor._extract_keyframes: the list of sampled
keyframe timestamps, in loop order. -/
def extractKeyframes (videoDur s e : ℚ) (numFrames : Nat) : List ℚ :=
  (List.range numFrames).map (keyframeTimestamp videoDur s e numFrames)

/-- Frame-reading loop of _extract_keyframes with the decode layer made
explicit: get_frame may raise, and the loop body has no handler, so the
first failing read aborts the whole extraction. -/
def extractFramesAux (getFrame : ℚ → Except Unit ℚ) : List ℚ → Except Unit (List ℚ)
  | [] => Except.ok []
  | t :: rest =>
    match getFrame t with
    | Except.error e => Except.error e
    | Except.ok f =>
      match extractFramesAux getFrame rest with
      | Except.error e => Except.error e
      | Except.ok fs => Except.ok (f :: fs)

/-- AudioProcessor._extract_keyframes with fallible frame reads: each
sampled timestamp is read exactly once, unguarded. -/
def extractKeyframesExc (getFrame : ℚ → Except Unit ℚ) (videoDur s e : ℚ)
    (numFrames : Nat) : Except Unit (List ℚ) :=
  extractFramesAux getFrame (extractKeyframes videoDur s e numFrames)

/-- Millisecond slice bounds of full_audio[int(start*1000):int(end*1000)]. -/
def audioSliceBounds (s e : ℚ) : Int × Int :=
  (pyInt (s * 1000), pyInt (e * 1000))

/-- pydub slicing full_audio[a:b] over a millisecond-indexed sample list. -/
def audioSlice {α : Type} (full : List α) (s e : ℚ) : List α :=
  ((full.drop (pyInt (s * 1000)).toNat)).take ((pyInt (e * 1000)) - pyInt (s * 1000)).toNat

/-- One SceneSegment as assembled by AudioProcessor.process (keyframes are
represented by their sampled timestamps; pixel data is opaque). -/
structure SceneSegment where
  scene_index : Nat
  start_time : ℚ
  end_time : ℚ
  keyframeTimes : List ℚ
  audioRange : Int × Int
  deriving DecidableEq, Repr

/-- Fallback of AudioProcessor.process: when scene detection returned no
scenes, substitute the single scene (FrameTimecode 0, FrameTimecode of the
whole duration). -/
def effectiveSceneList (detected : List (FrameTimecode × FrameTimecode))
    (fps duration : ℚ) : List (FrameTimecode × FrameTimecode) :=
  if detected.isEmpty then [(⟨0, fps⟩, FrameTimecode.ofSeconds duration fps)] else detected

/-- Embedding of AudioProcessor.process: apply the empty-detection
fallback, fail with ValueError when the opened video has no audio track,
otherwise build one SceneSegment per boundary with 5 keyframes and the
millisecond audio slice bounds. -/
def audioProcessorProcess (detected : List (FrameTimecode × FrameTimecode))
    (fps duration : ℚ) (hasAudio : Bool) : Except String (List SceneSegment) :=
  let sceneList := effectiveSceneList detected fps duration
  if !hasAudio then Except.error "No audio track found in video" else
  Except.ok <| sceneList.enum.map fun p =>
    let startSec := p.2.1.getSeconds
    let endSec := p.2.2.getSeconds
    { scene_index := p.1
      start_time := startSec
      end_time := endSec
      keyframeTimes := extractKeyframes duration startSec endSec 5
      audioRange := audioSliceBounds startSec endSec }

/-! ## Resolution score (src/backend/analyzers/video_quality.py,
VideoQualityAnalyzer._get_resolution_score): pure tiered arithmetic on the
total pixel count, modelled exactly over the rationals. -/

/-- Embedding of VideoQualityAnalyzer._get_resolution_score as a function
of the total pixel count h*w. -/
def resolutionScore (totalPixels : Nat) : ℚ :=
  if 8000000 ≤ totalPixels then 1
  else if 2000000 ≤ totalPixels then 7/10 + ((totalPixels : ℚ) - 2000000) / 6000000 * (3/10)
  else if 900000 ≤ totalPixels then 3/10 + ((totalPixels : ℚ) - 900000) / 1100000 * (4/10)
  else if 300000 ≤ totalPixels then 1/10 + ((totalPixels : ℚ) - 300000) / 600000 * (2/10)
  else (totalPixels : ℚ) / 300000 * (1/10)

/-! ## Quality scorer metrics (src/backend/analyzers/video_quality.py)

The remaining metrics use tanh, sqrt and fractional numpy powers, so they
are modelled over the reals; fractional powers are real rpow. -/

noncomputable section

/-- np.clip(x, 0, 1), also max(0.0, min(1.0, x)) as written in the source. -/
def clip01 (x : ℝ) : ℝ := max 0 (min 1 x)

/-- Embedding of VideoQualityAnalyzer._get_sharpness_score as a function of
the Laplacian variance of the (possibly downscaled) luma frame. -/
def sharpnessScore (variance : ℝ) : ℝ :=
  (Real.tanh (variance / 300)) ^ (0.8 : ℝ)

/-- np.mean of the three channel means in _get_color_balance_score. -/
def channelMean (rMean gMean bMean : ℝ) : ℝ := (rMean + gMean + bMean) / 3

/-- np.std (population standard deviation) of the three channel means. -/
def channelStd (rMean gMean bMean : ℝ) : ℝ :=
  Real.sqrt (((rMean - channelMean rMean gMean bMean) ^ 2 +
      (gMean - channelMean rMean gMean bMean) ^ 2 +
      (bMean - channelMean rMean gMean bMean) ^ 2) / 3)

/-- cv_ratio of _get_color_balance_score: std over mean plus 1e-8. -/
def cvRatio (rMean gMean bMean : ℝ) : ℝ :=
  channelStd rMean gMean bMean / (channelMean rMean gMean bMean + 1 / 100000000)

/-- Channel-balance part of _get_color_balance_score: the coefficient of
variation mapped through 1 - tanh(3 cv) and numpy power 1.2. -/
def balanceScore (rMean gMean bMean : ℝ) : ℝ :=
  (1 - Real.tanh (cvRatio rMean gMean bMean * 3)) ^ (1.2 : ℝ)

/-- Saturation-band part of _get_color_balance_score before its explicit
clamp: 1 inside [0.35, 0.65], power-1.5 falloff outside. -/
def saturationScoreRaw (sat : ℝ) : ℝ :=
  if 0.35 ≤ sat ∧ sat ≤ 0.65 then 1
  else if sat < 0.35 then (sat / 0.35) ^ (1.5 : ℝ)
  else (1 - (sat - 0.65) / 0.35) ^ (1.5 : ℝ)

/-- Saturation score with the source's max(0.0, min(1.0, _)) clamp. -/
def saturationScore (sat : ℝ) : ℝ := max 0 (min 1 (saturationScoreRaw sat))

/-- color_score of _get_color_balance_score: 65% balance, 35% saturation. -/
def colorScore (rMean gMean bMean sat : ℝ) : ℝ :=
  balanceScore rMean gMean bMean * 0.65 + saturationScore sat * 0.35

/-- Brightness-band sub-score of _get_lighting_score, with its clamp. -/
def brightnessScore (brightness : ℝ) : ℝ :=
  max 0 (min 1
    (if 0.42 ≤ brightness ∧ brightness ≤ 0.58 then 1
     else if brightness < 0.42 then (brightness / 0.42) ^ (1.5 : ℝ)
     else (1 - (brightness - 0.58) / 0.42) ^ (1.5 : ℝ)))

/-- Dynamic-range-band sub-score of _get_lighting_score, with its clamp. -/
def dynamicRangeScore (dr : ℝ) : ℝ :=
  max 0 (min 1
    (if 0.75 ≤ dr ∧ dr ≤ 0.92 then 1
     else if dr < 0.75 then (dr / 0.75) ^ (1.5 : ℝ)
     else (1 - (dr - 0.92) / 0.08) ^ (1.5 : ℝ)))

/-- clipping_penalty of _get_lighting_score: (over+under)^1.5 * 0.8, from
the fractions of histogram mass in the extreme bins. -/
def clippingPenalty (overexposed underexposed : ℝ) : ℝ :=
  ((overexposed + underexposed) ^ (1.5 : ℝ)) * 0.8

/-- lighting_score of _get_lighting_score: 45/45/10 weighted combination
raised to numpy power 0.9; note the composite is never explicitly clamped. -/
def lightingScore (brightness dr overexposed underexposed : ℝ) : ℝ :=
  (brightnessScore brightness * 0.45 + dynamicRangeScore dr * 0.45 +
      (1 - clippingPenalty overexposed underexposed) * 0.1) ^ (0.9 : ℝ)

/-- Per-frame statistics the quality metrics read off a decoded frame. -/
structure FrameStats where
  height : Nat
  width : Nat
  lapVariance : ℝ
  isColor : Bool
  satMean : ℝ
  rMean : ℝ
  gMean : ℝ
  bMean : ℝ
  brightness : ℝ
  dynRange : ℝ
  overexposed : ℝ
  underexposed : ℝ

/-- Invariants every statistics record extracted from an actual uint8
frame satisfies: a variance is nonnegative, channel means of nonnegative
pixel values are nonnegative, and the two extreme-bin masses of a
normalized histogram are nonnegative with sum at most 1. -/
def ValidStats (f : FrameStats) : Prop :=
  0 ≤ f.lapVariance ∧ 0 ≤ f.rMean ∧ 0 ≤ f.gMean ∧ 0 ≤ f.bMean ∧
    0 ≤ f.overexposed ∧ 0 ≤ f.underexposed ∧ f.overexposed + f.underexposed ≤ 1

/-- color_score dispatch of _get_color_balance_score: grayscale frames
(len(frame.shape) != 3) short-circuit to 0.5. -/
def frameColorScore (f : FrameStats) : ℝ :=
  if f.isColor then colorScore f.rMean f.gMean f.bMean f.satMean else 0.5

/-- The five-field report returned by VideoQualityAnalyzer.run. -/
structure QualityReport where
  resolution_score : ℝ
  sharpness_score : ℝ
  color_score : ℝ
  lighting_score : ℝ
  overall_quality : ℝ

/-- The all-zero report of the no-frames and exception fallback paths. -/
def zeroReport : QualityReport := ⟨0, 0, 0, 0, 0⟩

/-- np.mean over a list of per-frame scores. -/
def listMean (l : List ℝ) : ℝ := l.sum / (l.length : ℝ)

/-- Embedding of VideoQualityAnalyzer.run: frame extraction may raise (the
outer try/except returns the all-zero report), no extracted frames return
the all-zero report, and otherwise resolution is computed on the first
frame only while the other metrics are averaged over all frames; overall
is the 15/35/20/30 weighted sum raised to numpy power 0.85. -/
def videoQualityRun (extraction : Except Unit (List FrameStats)) : QualityReport :=
  match extraction with
  | Except.error _ => zeroReport
  | Except.ok [] => zeroReport
  | Except.ok (f0 :: rest) =>
    let frames := f0 :: rest
    let avgResolution := ((resolutionScore (f0.height * f0.width) : ℚ) : ℝ)
    let avgSharpness := listMean (frames.map fun f => sharpnessScore f.lapVariance)
    let avgColor := listMean (frames.map frameColorScore)
    let avgLighting := listMean
      (frames.map fun f => lightingScore f.brightness f.dynRange f.overexposed f.underexposed)
    let overall := (avgResolution * 0.15 + avgSharpness * 0.35 + avgColor * 0.20 +
        avgLighting * 0.30) ^ (0.85 : ℝ)
    ⟨avgResolution, avgSharpness, avgColor, avgLighting, overall⟩

/-! ## Authenticity scorer (src/backend/analyzers/ia_face_detector.py)

The FFT-based high-frequency energy ratio of a face's noise residual is
the input each per-face analysis consumes; a per-face failure anywhere in
the residual pipeline is the Except.error case, which _analyze_face_ai_vs_human
absorbs as suspicion 0.0. -/

/-- Embedding of IAFaceDetector._compute_prnu_score as a function of the
high-frequency energy ratio: affine map then np.clip to [0,1]. -/
def computePrnuScore (hfEnergy : ℝ) : ℝ :=
  clip01 ((hfEnergy - 0.1) / 0.4)

/-- Embedding of IAFaceDetector._analyze_face_ai_vs_human: suspicion is
1 - realness, renormalized against the band [0.7, 1.0], raised to numpy
power 0.15 and clipped; any per-face exception yields 0.0. -/
def analyzeFaceAiVsHuman (faceInput : Except Unit ℝ) : ℝ :=
  match faceInput with
  | Except.error _ => 0
  | Except.ok hfEnergy =>
    let realnessScore := computePrnuScore hfEnergy
    let aiScore := 1 - realnessScore
    let normalized : ℝ :=
      if aiScore ≤ 0.7 then 0
      else if 1 ≤ aiScore then 1
      else (aiScore - 0.7) / (1 - 0.7)
    clip01 (normalized ^ (0.15 : ℝ))

/-- Embedding of IAFaceDetector.run: 0.0 for zero detected faces, else the
fraction of the first max_faces_to_analyze faces whose suspicion score is
at least 1.0. -/
def iaFaceDetectorRun (faces : List (Except Unit ℝ)) (maxFacesToAnalyze : Nat) : ℝ :=
  if faces.isEmpty then 0
  else
    let facesToAnalyze := faces.take maxFacesToAnalyze
    let aiScores := facesToAnalyze.map analyzeFaceAiVsHuman
    if aiScores.isEmpty then 0
    else ((aiScores.countP fun s => decide (1 ≤ s)) : ℝ) / (aiScores.length : ℝ)

end

/-! ## Theorems -/

/-- C1 counterexample: a run whose first analyzer raises propagates the
exception out of VideoPipeline.run; no AnalysisResult is produced at all,
so no error marker is recorded and the second analyzer never appears. -/
theorem c1_counterexample :
    runAnalyzers [("IAFaceDetector", (Except.error "boom" : Except String Nat)),
        ("VideoQualityAnalyzer", Except.ok 1)] = Except.error "boom" ∧
      ¬ ∃ l : List (String × Nat),
        runAnalyzers [("IAFaceDetector", (Except.error "boom" : Except String Nat)),
          ("VideoQualityAnalyzer", Except.ok 1)] = Except.ok l := by
  refine ⟨rfl, ?_⟩
  rintro ⟨l, hl⟩
  simp [runAnalyzers] at hl

/-- C1 (amended): an analyzer that throws an unhandled error halts
VideoPipeline.run immediately, at any position in the analyzer list: the
error propagates as the result of the whole run even when earlier
analyzers succeeded, no error marker is recorded, and the remaining
analyzers never run.  Conversely the run returns a result list only when
every analyzer succeeds, and then the full ordered list is assembled. -/
theorem c1_error_halts_pipeline {E R : Type} :
    (∀ (okPairs : List (String × R)) (nm : String) (e : E)
        (rest : List (String × Except E R)),
        runAnalyzers ((okPairs.map fun p => (p.1, (Except.ok p.2 : Except E R))) ++
            (nm, Except.error e) :: rest) = Except.error e) ∧
      (∀ pairs : List (String × R),
        runAnalyzers (pairs.map fun p => (p.1, (Except.ok p.2 : Except E R))) =
          Except.ok pairs) ∧
      (∀ (analyzers : List (String × Except E R)) (results : List (String × R)),
        runAnalyzers analyzers = Except.ok results →
          analyzers = results.map fun p => (p.1, (Except.ok p.2 : Except E R))) := by
  refine ⟨?_, ?_, ?_⟩
  · intro okPairs nm e rest
    induction okPairs with
    | nil => rfl
    | cons p ps ih => simp [runAnalyzers, ih]
  · intro pairs
    induction pairs with
    | nil => rfl
    | cons p rest ih => simp [runAnalyzers, ih]
  · intro analyzers
    induction analyzers with
    | nil =>
      intro results h
      unfold runAnalyzers at h
      cases h
      rfl
    | cons hd rest ih =>
      obtain ⟨nm, r⟩ := hd
      intro results h
      unfold runAnalyzers at h
      cases r with
      | error e => cases h
      | ok v =>
        cases hr : runAnalyzers rest with
        | error e => rw [hr] at h; cases h
        | ok tail =>
          rw [hr] at h
          cases h
          simp [ih tail hr]

/-- C1 witness: a failing second analyzer, preceded by a successful one,
aborts a concrete run with its error; a concrete successful run came from
an all-successful analyzer list. -/
theorem c1_error_halts_pipeline_witness :
    runAnalyzers [("IAFaceDetector", (Except.ok 1 : Except String Nat)),
        ("VideoQualityAnalyzer", Except.error "boom"),
        ("SafetyChecker", Except.ok 2)] = Except.error "boom" ∧
      [("IAFaceDetector", (Except.ok 1 : Except String Nat))] =
        [("IAFaceDetector", (1 : Nat))].map fun p => (p.1, Except.ok p.2) :=
  ⟨c1_error_halts_pipeline.1 [("IAFaceDetector", 1)] "VideoQualityAnalyzer" "boom"
      [("SafetyChecker", Except.ok 2)],
    c1_error_halts_pipeline.2.2 [("IAFaceDetector", Except.ok 1)]
      [("IAFaceDetector", 1)] rfl⟩

/-- C3: constructing VideoQualityAnalyzer(video_path) always raises
TypeError, because its __init__ delegates to object.__init__ with an extra
positional argument; no state with a stored video path is ever produced. -/
theorem c3_constructor_always_raises (videoPath : String) :
    videoQualityAnalyzerInit videoPath = Except.error PyError.typeError := rfl

/-- C9: a video whose decoded stream has no audio track makes
AudioProcessor.process raise (modelled as a typed error value) for every
detected scene list and duration: no scene list is returned and the error
propagates to the caller. -/
theorem c9_missing_audio_fatal (detected : List (FrameTimecode × FrameTimecode))
    (fps duration : ℚ) :
    audioProcessorProcess detected fps duration false =
      Except.error "No audio track found in video" := rfl

/-- C10: whenever VideoPipeline.run completes its analyzers (returns a
result), the uploaded video file at video_path has been removed from the
filesystem before the results are returned. -/
theorem c10_source_video_deleted {E R : Type} (videoPath : String)
    (analyzers : List (String × Except E R)) (fs : Finset String)
    (result : List (String × R) × Finset String)
    (hrun : videoPipelineRun videoPath analyzers fs = Except.ok result) :
    videoPath ∉ result.2 := by
  unfold videoPipelineRun at hrun
  cases hra : runAnalyzers analyzers with
  | error e => rw [hra] at hrun; cases hrun
  | ok results =>
    rw [hra] at hrun
    cases hrun
    unfold removeUploaded
    split
    · exact Finset.not_mem_erase _ _
    · assumption

/-- C10 witness: a concrete successful run on a filesystem holding only
the uploaded file leaves a filesystem without it. -/
theorem c10_source_video_deleted_witness :
    "uploads/v.mp4" ∉
      (([("IAFaceDetector", (1 : Nat))], ({} : Finset String)) :
        List (String × Nat) × Finset String).2 :=
  c10_source_video_deleted (E := String) (R := Nat) "uploads/v.mp4"
    [("IAFaceDetector", Except.ok 1)] {"uploads/v.mp4"}
    ([("IAFaceDetector", 1)], {}) rfl

/-- C8: the resolution score is the tiered piecewise-linear function of
total pixel count with breakpoints at 300000, 900000, 2000000 and 8000000
pixels; a 3840x2160 frame scores exactly 1 and a 640x480 frame scores
strictly between 0.1 and 0.5. -/
theorem c8_resolution_piecewise :
    resolutionScore (3840 * 2160) = 1 ∧
      (1/10 < resolutionScore (640 * 480) ∧ resolutionScore (640 * 480) < 1/2) ∧
      (∀ p : Nat, p < 300000 → resolutionScore p = (p : ℚ) / 300000 * (1/10)) ∧
      (∀ p : Nat, 300000 ≤ p → p < 900000 →
        resolutionScore p = 1/10 + ((p : ℚ) - 300000) / 600000 * (2/10)) ∧
      (∀ p : Nat, 900000 ≤ p → p < 2000000 →
        resolutionScore p = 3/10 + ((p : ℚ) - 900000) / 1100000 * (4/10)) ∧
      (∀ p : Nat, 2000000 ≤ p → p < 8000000 →
        resolutionScore p = 7/10 + ((p : ℚ) - 2000000) / 6000000 * (3/10)) ∧
      (∀ p : Nat, 8000000 ≤ p → resolutionScore p = 1) := by
  refine ⟨by norm_num [resolutionScore], ⟨by norm_num [resolutionScore],
    by norm_num [resolutionScore]⟩, ?_, ?_, ?_, ?_, ?_⟩
  · intro p h
    unfold resolutionScore
    rw [if_neg (by omega), if_neg (by omega), if_neg (by omega), if_neg (by omega)]
  · intro p h1 h2
    unfold resolutionScore
    rw [if_neg (by omega), if_neg (by omega), if_neg (by omega), if_pos (by omega)]
  · intro p h1 h2
    unfold resolutionScore
    rw [if_neg (by omega), if_neg (by omega), if_pos (by omega)]
  · intro p h1 h2
    unfold resolutionScore
    rw [if_neg (by omega), if_pos (by omega)]
  · intro p h
    unfold resolutionScore
    rw [if_pos (by omega)]

/-- C8 witness: the tier formulas evaluated at one concrete pixel count
per tier. -/
theorem c8_resolution_piecewise_witness :
    resolutionScore 100000 = (100000 : ℚ) / 300000 * (1/10) ∧
      resolutionScore 307200 = 1/10 + ((307200 : ℚ) - 300000) / 600000 * (2/10) ∧
      resolutionScore 921600 = 3/10 + ((921600 : ℚ) - 900000) / 1100000 * (4/10) ∧
      resolutionScore 2073600 = 7/10 + ((2073600 : ℚ) - 2000000) / 6000000 * (3/10) ∧
      resolutionScore 8294400 = 1 :=
  ⟨c8_resolution_piecewise.2.2.1 100000 (by decide),
    c8_resolution_piecewise.2.2.2.1 307200 (by decide) (by decide),
    c8_resolution_piecewise.2.2.2.2.1 921600 (by decide) (by decide),
    c8_resolution_piecewise.2.2.2.2.2.1 2073600 (by decide) (by decide),
    c8_resolution_piecewise.2.2.2.2.2.2 8294400 (by decide)⟩

/-- Auxiliary: a successful frame-reading loop returns one frame per
sampled timestamp. -/
theorem extractFramesAux_ok_length (getFrame : ℚ → Except Unit ℚ) (ts : List ℚ)
    (frames : List ℚ) (h : extractFramesAux getFrame ts = Except.ok frames) :
    frames.length = ts.length := by
  induction ts generalizing frames with
  | nil =>
    unfold extractFramesAux at h
    cases h
    rfl
  | cons t rest ih =>
    unfold extractFramesAux at h
    cases hg : getFrame t with
    | error e => rw [hg] at h; cases h
    | ok f =>
      rw [hg] at h
      cases ha : extractFramesAux getFrame rest with
      | error e => rw [ha] at h; cases h
      | ok fs =>
        rw [ha] at h
        cases h
        simp [ih fs ha]

/-- Auxiliary: a failing read at any sampled timestamp makes the
frame-reading loop fail as a whole. -/
theorem extractFramesAux_error_of_mem (getFrame : ℚ → Except Unit ℚ) (ts : List ℚ)
    (t : ℚ) (hmem : t ∈ ts) (herr : getFrame t = Except.error ()) :
    extractFramesAux getFrame ts = Except.error () := by
  induction ts with
  | nil => cases hmem
  | cons t' rest ih =>
    unfold extractFramesAux
    rcases List.mem_cons.mp hmem with rfl | hmem'
    · rw [herr]
    · cases hg : getFrame t' with
      | error e => cases e; rfl
      | ok f => rw [ih hmem']

/-- C2: zero detected scene boundaries make AudioProcessor.process
substitute exactly one synthetic scene spanning [0, duration] (duration
being frame-aligned, as _detect_scenes returns it), and any successful
process call returns a non-empty scene list. -/
theorem c2_zero_boundaries_single_scene :
    (∀ (fps duration : ℚ) (n : Nat), 0 < fps → duration = (n : ℚ) / fps →
      audioProcessorProcess [] fps duration true =
        Except.ok [⟨0, 0, duration, extractKeyframes duration 0 duration 5,
          audioSliceBounds 0 duration⟩]) ∧
      (∀ (detected : List (FrameTimecode × FrameTimecode)) (fps duration : ℚ)
          (scenes : List SceneSegment),
        audioProcessorProcess detected fps duration true = Except.ok scenes →
          1 ≤ scenes.length) := by
  constructor
  · intro fps duration n hfps hdur
    have hfne : fps ≠ 0 := ne_of_gt hfps
    have hmul : duration * fps = (n : ℚ) := by
      rw [hdur, div_mul_cancel₀ _ hfne]
    have hzero : FrameTimecode.getSeconds ⟨0, fps⟩ = 0 := by
      simp [FrameTimecode.getSeconds]
    have hdurSec : (FrameTimecode.ofSeconds duration fps).getSeconds = duration := by
      simp only [FrameTimecode.ofSeconds, FrameTimecode.getSeconds, hmul, round_natCast,
        Int.toNat_natCast]
      exact hdur.symm
    simp [audioProcessorProcess, effectiveSceneList, hzero, hdurSec]
  · intro detected fps duration scenes h
    simp only [audioProcessorProcess, Bool.not_true, Bool.false_eq_true, if_false,
      Except.ok.injEq] at h
    subst h
    simp only [List.length_map, List.enum_length]
    unfold effectiveSceneList
    split
    · simp
    · rename_i hne
      rcases detected with _ | ⟨d, rest⟩
      · simp at hne
      · simp

/-- C2 witness: a 10-second 30fps video with no detected boundaries
yields the single full-length scene. -/
theorem c2_zero_boundaries_single_scene_witness :
    audioProcessorProcess [] 30 10 true =
      Except.ok [⟨0, 0, 10, extractKeyframes 10 0 10 5, audioSliceBounds 0 10⟩] :=
  c2_zero_boundaries_single_scene.1 30 10 300 (by norm_num) (by norm_num)

/-- C6: each scene's extraction samples exactly 5 keyframes at positions
0, 1/4, 2/4, 3/4, 1 of the scene in ascending order (the midpoint for a
single-frame request), every timestamp clamped to the video duration
minus 0.01, and slices the full audio track over the half-open
millisecond range [int(start*1000), int(end*1000)). -/
theorem c6_keyframes_and_audio_slice (videoDur s e : ℚ) (hse : s ≤ e) :
    extractKeyframes videoDur s e 5 =
        [min (s + (e - s) * 0) (videoDur - 1/100),
         min (s + (e - s) * (1/4)) (videoDur - 1/100),
         min (s + (e - s) * (2/4)) (videoDur - 1/100),
         min (s + (e - s) * (3/4)) (videoDur - 1/100),
         min (s + (e - s) * 1) (videoDur - 1/100)] ∧
      (extractKeyframes videoDur s e 5).length = 5 ∧
      (∀ t ∈ extractKeyframes videoDur s e 5, t ≤ videoDur - 1/100) ∧
      (extractKeyframes videoDur s e 5).Chain' (· ≤ ·) ∧
      extractKeyframes videoDur s e 1 = [min (s + (e - s) * (1/2)) (videoDur - 1/100)] ∧
      (∀ (full : List Int) (k : Nat), k < (audioSlice full s e).length →
        (audioSlice full s e)[k]? = full[(pyInt (s * 1000)).toNat + k]?) ∧
      (∀ full : List Int, (audioSlice full s e).length =
        min ((pyInt (e * 1000)) - pyInt (s * 1000)).toNat
          (full.length - (pyInt (s * 1000)).toNat)) := by
  have hd : (0 : ℚ) ≤ e - s := sub_nonneg.mpr hse
  have hlist : extractKeyframes videoDur s e 5 =
      [min (s + (e - s) * 0) (videoDur - 1/100),
       min (s + (e - s) * (1/4)) (videoDur - 1/100),
       min (s + (e - s) * (2/4)) (videoDur - 1/100),
       min (s + (e - s) * (3/4)) (videoDur - 1/100),
       min (s + (e - s) * 1) (videoDur - 1/100)] := by
    simp [extractKeyframes, keyframeTimestamp, List.range_succ]
    norm_num
  refine ⟨hlist, ?_, ?_, ?_, ?_, ?_, ?_⟩
  · rw [hlist]; rfl
  · intro t ht
    simp only [extractKeyframes, List.mem_map] at ht
    obtain ⟨i, _, rfl⟩ := ht
    exact min_le_right _ _
  · rw [hlist]
    refine List.chain'_cons.mpr ⟨?_, List.chain'_cons.mpr ⟨?_,
      List.chain'_cons.mpr ⟨?_, List.chain'_cons.mpr ⟨?_, List.chain'_singleton _⟩⟩⟩⟩ <;>
      · apply min_le_min _ le_rfl
        nlinarith
  · simp [extractKeyframes, keyframeTimestamp, List.range_succ]
  · intro full k hk
    simp only [audioSlice, List.length_take, List.length_drop, lt_min_iff] at hk
    rw [audioSlice, List.getElem?_take_of_lt hk.1, List.getElem?_drop]
  · intro full
    simp [audioSlice]

/-- C6 witness: a concrete scene [0, 4] of a 10-second video. -/
theorem c6_keyframes_and_audio_slice_witness :
    (extractKeyframes 10 0 4 5).length = 5 :=
  (c6_keyframes_and_audio_slice 10 0 4 (by norm_num)).2.1

/-- C7 counterexample: a frame read failing at the first sampled
timestamp (and readable everywhere else, including one frame earlier)
makes the whole extraction raise; no scene with fewer keyframes is
produced and no retry happens. -/
theorem c7_counterexample :
    extractKeyframesExc (fun t => if t = 0 then Except.error () else Except.ok t)
        10 0 4 5 = Except.error () ∧
      ¬ ∃ frames, extractKeyframesExc
        (fun t => if t = 0 then Except.error () else Except.ok t) 10 0 4 5 =
          Except.ok frames := by
  have ht0 : keyframeTimestamp 10 0 4 5 0 = 0 := by
    norm_num [keyframeTimestamp]
  have h0 : extractKeyframesExc (fun t => if t = 0 then Except.error () else Except.ok t)
      10 0 4 5 = Except.error () := by
    unfold extractKeyframesExc
    apply extractFramesAux_error_of_mem _ _ (keyframeTimestamp 10 0 4 5 0)
    · exact List.mem_map_of_mem _ (List.mem_range.mpr (by norm_num))
    · rw [ht0]
      simp
  refine ⟨h0, ?_⟩
  rintro ⟨frames, hl⟩
  rw [h0] at hl
  cases hl

/-- C7 (amended): keyframe extraction performs no retry: a successful
extraction always returns exactly num_frames keyframes, and an unreadable
frame at any sampled timestamp makes the extraction (hence the scene) fail
as a whole. -/
theorem c7_unreadable_frame_aborts_run (getFrame : ℚ → Except Unit ℚ)
    (videoDur s e : ℚ) (numFrames : Nat) :
    (∀ frames, extractKeyframesExc getFrame videoDur s e numFrames = Except.ok frames →
        frames.length = numFrames) ∧
      ((∃ i, i < numFrames ∧
          getFrame (keyframeTimestamp videoDur s e numFrames i) = Except.error ()) →
        extractKeyframesExc getFrame videoDur s e numFrames = Except.error ()) := by
  constructor
  · intro frames h
    have hlen := extractFramesAux_ok_length getFrame _ frames h
    simpa [extractKeyframes] using hlen
  · rintro ⟨i, hi, herr⟩
    exact extractFramesAux_error_of_mem getFrame _ _
      (List.mem_map_of_mem _ (List.mem_range.mpr hi)) herr

/-- C7 witness: a decoder failing on every read aborts a concrete
extraction. -/
theorem c7_unreadable_frame_aborts_run_witness :
    extractKeyframesExc (fun _ => Except.error ()) 10 0 4 5 = Except.error () :=
  (c7_unreadable_frame_aborts_run (fun _ => Except.error ()) 10 0 4 5).2
    ⟨0, by norm_num, rfl⟩

/-- Auxiliary: tanh is nonnegative on nonnegative inputs. -/
theorem tanh_nonneg_of_nonneg {x : ℝ} (hx : 0 ≤ x) : 0 ≤ Real.tanh x := by
  rw [Real.tanh_eq_sinh_div_cosh]
  exact div_nonneg (Real.sinh_nonneg_iff.mpr hx) (Real.cosh_pos x).le

/-- Auxiliary: tanh is strictly below 1. -/
theorem tanh_lt_one (x : ℝ) : Real.tanh x < 1 := by
  rw [Real.tanh_eq_sinh_div_cosh, div_lt_one (Real.cosh_pos x)]
  exact Real.sinh_lt_cosh x

/-- Auxiliary: np.clip(x, 0, 1) is nonnegative. -/
theorem clip01_nonneg (x : ℝ) : 0 ≤ clip01 x := le_max_left 0 _

/-- Auxiliary: np.clip(x, 0, 1) is at most 1. -/
theorem clip01_le_one (x : ℝ) : clip01 x ≤ 1 :=
  max_le (by norm_num) (min_le_left 1 x)

/-- Auxiliary: the resolution score always lands in [0, 1]. -/
theorem resolutionScore_mem (p : Nat) :
    0 ≤ resolutionScore p ∧ resolutionScore p ≤ 1 := by
  unfold resolutionScore
  split_ifs with h1 h2 h3 h4
  · norm_num
  · have hu : (p : ℚ) < 8000000 := by exact_mod_cast not_le.mp h1
    have hl : (2000000 : ℚ) ≤ (p : ℚ) := by exact_mod_cast h2
    constructor <;> nlinarith
  · have hu : (p : ℚ) < 2000000 := by exact_mod_cast not_le.mp h2
    have hl : (900000 : ℚ) ≤ (p : ℚ) := by exact_mod_cast h3
    constructor <;> nlinarith
  · have hu : (p : ℚ) < 900000 := by exact_mod_cast not_le.mp h3
    have hl : (300000 : ℚ) ≤ (p : ℚ) := by exact_mod_cast h4
    constructor <;> nlinarith
  · have hu : (p : ℚ) < 300000 := by exact_mod_cast not_le.mp h4
    have hl : (0 : ℚ) ≤ (p : ℚ) := Nat.cast_nonneg p
    constructor <;> nlinarith

/-- Auxiliary: the sharpness score of a nonnegative Laplacian variance
lands in [0, 1]. -/
theorem sharpnessScore_mem (v : ℝ) (hv : 0 ≤ v) :
    0 ≤ sharpnessScore v ∧ sharpnessScore v ≤ 1 := by
  unfold sharpnessScore
  have h0 : 0 ≤ Real.tanh (v / 300) := tanh_nonneg_of_nonneg (by positivity)
  have h1 : Real.tanh (v / 300) ≤ 1 := (tanh_lt_one _).le
  exact ⟨Real.rpow_nonneg h0 _, Real.rpow_le_one h0 h1 (by norm_num)⟩

/-- Auxiliary: the channel-balance score of nonnegative channel means
lands in [0, 1]. -/
theorem balanceScore_mem (r g b : ℝ) (hr : 0 ≤ r) (hg : 0 ≤ g) (hb : 0 ≤ b) :
    0 ≤ balanceScore r g b ∧ balanceScore r g b ≤ 1 := by
  unfold balanceScore
  have hmean : 0 ≤ channelMean r g b := by unfold channelMean; positivity
  have hcv : 0 ≤ cvRatio r g b := by
    unfold cvRatio
    exact div_nonneg (Real.sqrt_nonneg _) (by positivity)
  have ht0 : 0 ≤ Real.tanh (cvRatio r g b * 3) :=
    tanh_nonneg_of_nonneg (by positivity)
  have ht1 : Real.tanh (cvRatio r g b * 3) < 1 := tanh_lt_one _
  have hbase0 : 0 ≤ 1 - Real.tanh (cvRatio r g b * 3) := by linarith
  have hbase1 : 1 - Real.tanh (cvRatio r g b * 3) ≤ 1 := by linarith
  exact ⟨Real.rpow_nonneg hbase0 _, Real.rpow_le_one hbase0 hbase1 (by norm_num)⟩

/-- Auxiliary: the explicitly clamped saturation score lands in [0, 1]. -/
theorem saturationScore_mem (s : ℝ) :
    0 ≤ saturationScore s ∧ saturationScore s ≤ 1 :=
  ⟨le_max_left _ _, max_le (by norm_num) (min_le_left _ _)⟩

/-- Auxiliary: the per-frame color score lands in [0, 1] when the channel
means are nonnegative (grayscale frames score 0.5). -/
theorem frameColorScore_mem (f : FrameStats) (hf : ValidStats f) :
    0 ≤ frameColorScore f ∧ frameColorScore f ≤ 1 := by
  obtain ⟨-, hr, hg, hb, -, -, -⟩ := hf
  unfold frameColorScore
  split
  · unfold colorScore
    obtain ⟨hb0, hb1⟩ := balanceScore_mem f.rMean f.gMean f.bMean hr hg hb
    obtain ⟨hs0, hs1⟩ := saturationScore_mem f.satMean
    constructor <;> nlinarith
  · norm_num

/-- Auxiliary: the clamped brightness sub-score lands in [0, 1]. -/
theorem brightnessScore_mem (x : ℝ) :
    0 ≤ brightnessScore x ∧ brightnessScore x ≤ 1 :=
  ⟨le_max_left _ _, max_le (by norm_num) (min_le_left _ _)⟩

/-- Auxiliary: the clamped dynamic-range sub-score lands in [0, 1]. -/
theorem dynamicRangeScore_mem (x : ℝ) :
    0 ≤ dynamicRangeScore x ∧ dynamicRangeScore x ≤ 1 :=
  ⟨le_max_left _ _, max_le (by norm_num) (min_le_left _ _)⟩

/-- Auxiliary: the clipping penalty built from disjoint fractions of a
normalized histogram lands in [0, 0.8]. -/
theorem clippingPenalty_mem (o u : ℝ) (ho : 0 ≤ o) (hu : 0 ≤ u)
    (hsum : o + u ≤ 1) : 0 ≤ clippingPenalty o u ∧ clippingPenalty o u ≤ 0.8 := by
  unfold clippingPenalty
  have h0 : 0 ≤ o + u := by linarith
  have hp0 : 0 ≤ (o + u) ^ (1.5 : ℝ) := Real.rpow_nonneg h0 _
  have hp1 : (o + u) ^ (1.5 : ℝ) ≤ 1 := Real.rpow_le_one h0 hsum (by norm_num)
  constructor <;> nlinarith

/-- Auxiliary: the lighting score lands in [0, 1] although its composite
is never explicitly clamped: the 45/45/10 weights and the penalty bound
0.8 keep the base of the final power inside [0.02, 1]. -/
theorem lightingScore_mem (br dr o u : ℝ) (ho : 0 ≤ o) (hu : 0 ≤ u)
    (hsum : o + u ≤ 1) :
    0 ≤ lightingScore br dr o u ∧ lightingScore br dr o u ≤ 1 := by
  unfold lightingScore
  obtain ⟨hb0, hb1⟩ := brightnessScore_mem br
  obtain ⟨hd0, hd1⟩ := dynamicRangeScore_mem dr
  obtain ⟨hc0, hc1⟩ := clippingPenalty_mem o u ho hu hsum
  have hbase0 : 0 ≤ brightnessScore br * 0.45 + dynamicRangeScore dr * 0.45 +
      (1 - clippingPenalty o u) * 0.1 := by nlinarith
  have hbase1 : brightnessScore br * 0.45 + dynamicRangeScore dr * 0.45 +
      (1 - clippingPenalty o u) * 0.1 ≤ 1 := by nlinarith
  exact ⟨Real.rpow_nonneg hbase0 _, Real.rpow_le_one hbase0 hbase1 (by norm_num)⟩

/-- Auxiliary: the mean of a non-empty list of values in [0, 1] lands in
[0, 1]. -/
theorem listMean_mem (l : List ℝ) (hne : l ≠ [])
    (h : ∀ x ∈ l, 0 ≤ x ∧ x ≤ 1) : 0 ≤ listMean l ∧ listMean l ≤ 1 := by
  unfold listMean
  have hlen : 0 < (l.length : ℝ) := by
    exact_mod_cast List.length_pos.mpr hne
  have hsum0 : 0 ≤ l.sum := List.sum_nonneg fun x hx => (h x hx).1
  have hsum1 : l.sum ≤ (l.length : ℝ) := by
    have hle := List.sum_le_card_nsmul l 1 fun x hx => (h x hx).2
    simpa using hle
  exact ⟨div_nonneg hsum0 hlen.le, (div_le_one hlen).mpr hsum1⟩

/-- Auxiliary: the 15/35/20/30 weighted overall score of four values in
[0, 1], raised to numpy power 0.85, lands in [0, 1]. -/
theorem overallQuality_mem (r s c li : ℝ) (hr : 0 ≤ r ∧ r ≤ 1)
    (hs : 0 ≤ s ∧ s ≤ 1) (hc : 0 ≤ c ∧ c ≤ 1) (hl : 0 ≤ li ∧ li ≤ 1) :
    0 ≤ (r * 0.15 + s * 0.35 + c * 0.20 + li * 0.30) ^ (0.85 : ℝ) ∧
      (r * 0.15 + s * 0.35 + c * 0.20 + li * 0.30) ^ (0.85 : ℝ) ≤ 1 := by
  obtain ⟨hr0, hr1⟩ := hr
  obtain ⟨hs0, hs1⟩ := hs
  obtain ⟨hc0, hc1⟩ := hc
  obtain ⟨hl0, hl1⟩ := hl
  have hbase0 : 0 ≤ r * 0.15 + s * 0.35 + c * 0.20 + li * 0.30 := by nlinarith
  have hbase1 : r * 0.15 + s * 0.35 + c * 0.20 + li * 0.30 ≤ 1 := by nlinarith
  exact ⟨Real.rpow_nonneg hbase0 _, Real.rpow_le_one hbase0 hbase1 (by norm_num)⟩

/-- Frames a quality-scorer run reads: the extracted list on success, none
on the exception path. -/
def extractedFrames : Except Unit (List FrameStats) → List FrameStats
  | Except.error _ => []
  | Except.ok l => l

/-- C4: every field of the report returned by VideoQualityAnalyzer.run is
in [0, 1] for any extracted frame list whose statistics come from actual
frames, including the no-frames and exception fallback paths, even though
the composite lighting and overall values are never explicitly clamped. -/
theorem c4_quality_report_bounded (extraction : Except Unit (List FrameStats))
    (hv : ∀ f ∈ extractedFrames extraction, ValidStats f) :
    (0 ≤ (videoQualityRun extraction).resolution_score ∧
        (videoQualityRun extraction).resolution_score ≤ 1) ∧
      (0 ≤ (videoQualityRun extraction).sharpness_score ∧
        (videoQualityRun extraction).sharpness_score ≤ 1) ∧
      (0 ≤ (videoQualityRun extraction).color_score ∧
        (videoQualityRun extraction).color_score ≤ 1) ∧
      (0 ≤ (videoQualityRun extraction).lighting_score ∧
        (videoQualityRun extraction).lighting_score ≤ 1) ∧
      (0 ≤ (videoQualityRun extraction).overall_quality ∧
        (videoQualityRun extraction).overall_quality ≤ 1) := by
  cases extraction with
  | error e =>
    simp only [videoQualityRun, zeroReport]
    norm_num
  | ok l =>
    cases l with
    | nil =>
      simp only [videoQualityRun, zeroReport]
      norm_num
    | cons f0 rest =>
      have hv' : ∀ f ∈ f0 :: rest, ValidStats f := by
        simpa [extractedFrames] using hv
      have hres : 0 ≤ ((resolutionScore (f0.height * f0.width) : ℚ) : ℝ) ∧
          ((resolutionScore (f0.height * f0.width) : ℚ) : ℝ) ≤ 1 := by
        obtain ⟨h0, h1⟩ := resolutionScore_mem (f0.height * f0.width)
        exact ⟨by exact_mod_cast h0, by exact_mod_cast h1⟩
      have hsharp : 0 ≤ listMean ((f0 :: rest).map fun f => sharpnessScore f.lapVariance) ∧
          listMean ((f0 :: rest).map fun f => sharpnessScore f.lapVariance) ≤ 1 := by
        apply listMean_mem _ (by simp)
        intro x hx
        obtain ⟨f, hf, rfl⟩ := List.mem_map.mp hx
        exact sharpnessScore_mem f.lapVariance (hv' f hf).1
      have hcolor : 0 ≤ listMean ((f0 :: rest).map frameColorScore) ∧
          listMean ((f0 :: rest).map frameColorScore) ≤ 1 := by
        apply listMean_mem _ (by simp)
        intro x hx
        obtain ⟨f, hf, rfl⟩ := List.mem_map.mp hx
        exact frameColorScore_mem f (hv' f hf)
      have hlight : 0 ≤ listMean ((f0 :: rest).map fun f =>
            lightingScore f.brightness f.dynRange f.overexposed f.underexposed) ∧
          listMean ((f0 :: rest).map fun f =>
            lightingScore f.brightness f.dynRange f.overexposed f.underexposed) ≤ 1 := by
        apply listMean_mem _ (by simp)
        intro x hx
        obtain ⟨f, hf, rfl⟩ := List.mem_map.mp hx
        obtain ⟨-, -, -, -, ho, hu, hsum⟩ := hv' f hf
        exact lightingScore_mem f.brightness f.dynRange f.overexposed f.underexposed ho hu hsum
      have hover := overallQuality_mem _ _ _ _ hres hsharp hcolor hlight
      simp only [videoQualityRun]
      exact ⟨hres, hsharp, hcolor, hlight, hover⟩

/-- C4 witness: a single synthetic 1920x1080 frame with all statistics
zero satisfies the frame invariants and yields a bounded overall score. -/
theorem c4_quality_report_bounded_witness :
    0 ≤ (videoQualityRun
      (Except.ok [⟨1920, 1080, 0, true, 0, 0, 0, 0, 0, 0, 0, 0⟩])).overall_quality :=
  ((c4_quality_report_bounded (Except.ok [⟨1920, 1080, 0, true, 0, 0, 0, 0, 0, 0, 0, 0⟩])
    (by
      intro f hf
      simp only [extractedFrames, List.mem_singleton] at hf
      subst hf
      norm_num [ValidStats])).2.2.2.2).1

/-- Auxiliary: every per-face suspicion score lands in [0, 1]. -/
theorem analyzeFace_mem (f : Except Unit ℝ) :
    0 ≤ analyzeFaceAiVsHuman f ∧ analyzeFaceAiVsHuman f ≤ 1 := by
  cases f with
  | error e => simp [analyzeFaceAiVsHuman]
  | ok hfEnergy =>
    simp only [analyzeFaceAiVsHuman]
    exact ⟨clip01_nonneg _, clip01_le_one _⟩

/-- Auxiliary: since every suspicion score is at most 1, counting scores
at least 1 counts exactly the scores equal to 1. -/
theorem countP_saturated (l : List (Except Unit ℝ)) :
    (l.map analyzeFaceAiVsHuman).countP (fun s => decide (1 ≤ s)) =
      l.countP fun f => decide (analyzeFaceAiVsHuman f = 1) := by
  rw [List.countP_map]
  apply List.countP_congr
  intro f hf
  simp only [Function.comp_apply, decide_eq_true_eq]
  constructor
  · intro h
    exact le_antisymm (analyzeFace_mem f).2 h
  · intro h
    rw [h]

/-- C5: the authenticity score of IAFaceDetector.run is the fraction k/n
of the at most 10 analyzed faces whose suspicion score is exactly at the
saturated maximum 1.0, is 0.0 when zero faces are detected, and always
lands in [0, 1]. -/
theorem c5_authenticity_saturated_fraction (faces : List (Except Unit ℝ)) :
    iaFaceDetectorRun faces 10 =
        (if faces.isEmpty then 0
         else (((faces.take 10).countP fun f => decide (analyzeFaceAiVsHuman f = 1)) : ℝ) /
           ((faces.take 10).length : ℝ)) ∧
      iaFaceDetectorRun [] 10 = 0 ∧
      0 ≤ iaFaceDetectorRun faces 10 ∧ iaFaceDetectorRun faces 10 ≤ 1 := by
  refine ⟨?_, rfl, ?_, ?_⟩
  · rcases faces with _ | ⟨f, rest⟩
    · rfl
    · have htake : (f :: rest).take 10 = f :: rest.take 9 := rfl
      have hm : ((f :: rest.take 9).map analyzeFaceAiVsHuman).isEmpty = false := rfl
      simp only [iaFaceDetectorRun, htake, List.isEmpty_cons, Bool.false_eq_true,
        if_false, hm]
      rw [countP_saturated (f :: rest.take 9), List.length_map]
  · simp only [iaFaceDetectorRun]
    split
    · exact le_refl 0
    · split
      · norm_num
      · exact div_nonneg (Nat.cast_nonneg _) (Nat.cast_nonneg _)
  · simp only [iaFaceDetectorRun]
    split
    · norm_num
    · split
      · norm_num
      · apply div_le_one_of_le₀
        · exact_mod_cast List.countP_le_length _
        · exact Nat.cast_nonneg _

end VideoCore
